import Mathlib

/-!
Shallow embedding of the biofouling-and-settling core of
`SOAC_regional_Kooi+NEMO_3D_noAdvection.py`: the `Kooi` kernel (attached-algae
kinetics, composite geometry and density, dimensionless settling-velocity
correlation, depth integration with surface clamp) and the viscosity part of
the `Profiles` kernel.  Machine floats are modelled as real numbers; Python's
`x ** (1/3)` and `10 ** x` become `Real.rpow`, `math.log10` becomes
`Real.logb 10`.
-/

namespace SOAC

/-- Physical constants injected through `fieldset.add_constant` in the source
(`M_a`, `K`, `Rho_bf`, `V_a`, `R20`, `Q10`, `Gamma`, `Wt_N`, `G`). -/
structure KooiConfig where
  G : ℝ
  K : ℝ
  Rho_bf : ℝ
  V_a : ℝ
  M_a : ℝ
  R20 : ℝ
  Q10 : ℝ
  Gamma : ℝ
  Wt_N : ℝ

/-- Reference constant values, exactly as set in the source's main block. -/
noncomputable def refConfig : KooiConfig where
  G := 7.32e10 / 86400 ^ 2
  K := 1.0306e-13 / 86400 ^ 2
  Rho_bf := 1388
  V_a := 2.0e-16
  M_a := 0.39 / 86400
  R20 := 0.1 / 86400
  Q10 := 2
  Gamma := 1.728e5 / 86400
  Wt_N := 14.007

/-- Per-particle state: the fields of the `plastic_particle` class that the
`Kooi` kernel reads or writes, plus the inherited `depth`. -/
structure ParticleState where
  depth : ℝ
  temp : ℝ
  sw_visc : ℝ
  kin_visc : ℝ
  density : ℝ
  a : ℝ
  vs : ℝ
  nd_phy : ℝ
  d_phy : ℝ
  tpp3 : ℝ
  r_pl : ℝ
  rho_pl : ℝ
  a_coll : ℝ
  a_growth : ℝ
  a_resp : ℝ
  vs_init : ℝ
  rho_tot : ℝ
  r_tot : ℝ
  delta_rho : ℝ

/-- Median nitrogen content of one algal cell, a literal in the kernel. -/
def med_N2cell : ℝ := 356.04e-9

/-- Ambient algal cell concentration before the sign clamp:
`n2 = (nd_phy + d_phy) * wt_N / med_N2cell`. -/
noncomputable def n2 (c : KooiConfig) (p : ParticleState) : ℝ :=
  (p.nd_phy + p.d_phy) * c.Wt_N / med_N2cell

/-- Clamped ambient algal concentration `aa`: negative inputs clamp to zero. -/
noncomputable def aa (c : KooiConfig) (p : ParticleState) : ℝ :=
  if n2 c p < 0 then 0 else n2 c p

/-- Algal growth rate `mu_aa` in 1/s.  The source computes
`mu_n2 = (tpp3 * wt_N / med_N2cell) / aa` unconditionally; at `aa = 0` the
source's float behaviour is locally undefined and the spec directs the
implementer to guard the case so that `mu_aa = 0` there.  The embedding's
total real division (`x / 0 = 0`) realises exactly that guard and coincides
with the source whenever `aa` is nonzero. -/
noncomputable def mu_aa (c : KooiConfig) (p : ParticleState) : ℝ :=
  let mu_n2 := p.tpp3 * c.Wt_N / med_N2cell / aa c p
  if mu_n2 < 0 then 0 else mu_n2 / 86400

/-- Volume of the bare plastic sphere `v_pl = (4/3) pi r_pl^3`. -/
noncomputable def v_pl (p : ParticleState) : ℝ :=
  (4 / 3) * Real.pi * p.r_pl ^ 3

/-- Surface area of the plastic particle `theta_pl = 4 pi r_pl^2`. -/
noncomputable def theta_pl (p : ParticleState) : ℝ :=
  4 * Real.pi * p.r_pl ^ 2

/-- Radius of one algal cell `r_a = ((3/4) (v_a/pi))^(1/3)`. -/
noncomputable def r_a (c : KooiConfig) : ℝ :=
  ((3 / 4) * (c.V_a / Real.pi)) ^ ((1 : ℝ) / 3)

/-- Volume of the biofilm `v_bf = (v_a * a) * theta_pl`. -/
noncomputable def v_bf (c : KooiConfig) (p : ParticleState) : ℝ :=
  c.V_a * p.a * theta_pl p

/-- Total particle volume `v_tot = v_bf + v_pl`. -/
noncomputable def v_tot (c : KooiConfig) (p : ParticleState) : ℝ :=
  v_bf c p + v_pl p

/-- Biofilm thickness `t_bf = (v_tot * 3/(4 pi))^(1/3) - r_pl`. -/
noncomputable def t_bf (c : KooiConfig) (p : ParticleState) : ℝ :=
  (v_tot c p * (3 / (4 * Real.pi))) ^ ((1 : ℝ) / 3) - p.r_pl

/-- Total radius `r_tot = r_pl + t_bf`. -/
noncomputable def r_tot (c : KooiConfig) (p : ParticleState) : ℝ :=
  p.r_pl + t_bf c p

/-- Total (plastic plus biofilm) density `rho_tot`. -/
noncomputable def rho_tot (c : KooiConfig) (p : ParticleState) : ℝ :=
  (p.r_pl ^ 3 * p.rho_pl +
      ((p.r_pl + t_bf c p) ^ 3 - p.r_pl ^ 3) * c.Rho_bf) /
    (p.r_pl + t_bf c p) ^ 3

/-- Diffusivity of the plastic particle. -/
noncomputable def d_pl (c : KooiConfig) (p : ParticleState) : ℝ :=
  c.K * (p.temp + 273.16) / (6 * Real.pi * p.sw_visc * r_tot c p)

/-- Diffusivity of algal cells. -/
noncomputable def d_a (c : KooiConfig) (p : ParticleState) : ℝ :=
  c.K * (p.temp + 273.16) / (6 * Real.pi * p.sw_visc * r_a c)

/-- Brownian-motion encounter rate. -/
noncomputable def beta_abrown (c : KooiConfig) (p : ParticleState) : ℝ :=
  4 * Real.pi * (d_pl c p + d_a c p) * (r_tot c p + r_a c)

/-- Advective-shear encounter rate. -/
noncomputable def beta_ashear (c : KooiConfig) (p : ParticleState) : ℝ :=
  1.3 * c.Gamma * (r_tot c p + r_a c) ^ 3

/-- Differential-settling encounter rate, using the previous step's `vs`. -/
noncomputable def beta_aset (c : KooiConfig) (p : ParticleState) : ℝ :=
  (1 / 2) * Real.pi * r_tot c p ^ 2 * |p.vs|

/-- Total collision rate `beta_a`. -/
noncomputable def beta_a (c : KooiConfig) (p : ParticleState) : ℝ :=
  beta_abrown c p + beta_ashear c p + beta_aset c p

/-- Collision attachment rate `a_coll = (beta_a * aa) / theta_pl`. -/
noncomputable def a_coll (c : KooiConfig) (p : ParticleState) : ℝ :=
  beta_a c p * aa c p / theta_pl p

/-- Attached-algae growth rate `a_growth = mu_aa * a`. -/
noncomputable def a_growth (c : KooiConfig) (p : ParticleState) : ℝ :=
  mu_aa c p * p.a

/-- Attached-algae mortality rate `a_mort = m_a * a`. -/
def a_mort (c : KooiConfig) (p : ParticleState) : ℝ :=
  c.M_a * p.a

/-- Attached-algae respiration rate `a_resp = q10^((t-20)/10) * r20 * a`. -/
noncomputable def a_resp (c : KooiConfig) (p : ParticleState) : ℝ :=
  c.Q10 ^ ((p.temp - 20) / 10) * c.R20 * p.a

/-- Equivalent spherical diameter `dn = 2 * r_tot`. -/
noncomputable def dn (c : KooiConfig) (p : ParticleState) : ℝ :=
  2 * r_tot c p

/-- Normalised density anomaly `delta_rho = (rho_tot - rho_sw) / rho_sw`. -/
noncomputable def delta_rho (c : KooiConfig) (p : ParticleState) : ℝ :=
  (rho_tot c p - p.density) / p.density

/-- Dimensionless settling number
`dstar = (rho_tot - rho_sw) * g * dn^3 / (rho_sw * kin_visc^2)`. -/
noncomputable def dstar (c : KooiConfig) (p : ParticleState) : ℝ :=
  (rho_tot c p - p.density) * c.G * dn c p ^ 3 / (p.density * p.kin_visc ^ 2)

/-- Dimensionless settling velocity `w`: the piecewise published correlation
with its strict regime comparisons. -/
noncomputable def w (c : KooiConfig) (p : ParticleState) : ℝ :=
  if dstar c p > 5e9 then 1000
  else if dstar c p < 0.05 then dstar c p ^ 2 * 1.71e-4
  else
    (10 : ℝ) ^ (-3.76715 + 1.92944 * Real.logb 10 (dstar c p)
      - 0.09815 * Real.logb 10 (dstar c p) ^ 2
      - 0.00575 * Real.logb 10 (dstar c p) ^ 3
      + 0.00056 * Real.logb 10 (dstar c p) ^ 4)

/-- Pre-clamp signed settling velocity: positive branch when `delta_rho > 0`
(sinking), otherwise the negated cube root of the mirrored product. -/
noncomputable def vs_init (c : KooiConfig) (p : ParticleState) : ℝ :=
  if delta_rho c p > 0 then
    (c.G * p.kin_visc * w c p * delta_rho c p) ^ ((1 : ℝ) / 3)
  else
    -1 * (c.G * p.kin_visc * w c p * (delta_rho c p * -1)) ^ ((1 : ℝ) / 3)

/-- Depth integration with the surface clamp of the source: `z0 = z + vs*dt`;
when `z0 <= 0.6` or `z0 >= 4000` the velocity is zeroed and the depth snaps
to `0.6`, otherwise the depth becomes `z + vs*dt`.  Returns (depth, vs). -/
noncomputable def clampStep (z vs dt : ℝ) : ℝ × ℝ :=
  if z + vs * dt ≤ 0.6 ∨ 4000 ≤ z + vs * dt then (0.6, 0)
  else (z + vs * dt, vs)

/-- One invocation of the `Kooi` kernel: advances `a` by an explicit Euler
step, records the diagnostics, computes the pre-clamp settling velocity and
integrates depth with the surface clamp. -/
noncomputable def kooiStep (c : KooiConfig) (p : ParticleState) (dt : ℝ) :
    ParticleState :=
  { p with
    a := p.a + (a_coll c p + a_growth c p - a_mort c p - a_resp c p) * dt
    a_coll := a_coll c p
    a_growth := a_growth c p
    a_resp := a_resp c p
    vs_init := vs_init c p
    depth := (clampStep p.depth (vs_init c p) dt).1
    vs := (clampStep p.depth (vs_init c p) dt).2
    rho_tot := rho_tot c p
    r_tot := r_tot c p
    delta_rho := delta_rho c p }

/-- Variant of the kernel without the depth clamp: depth integrates freely and
the velocity is kept.  Used to express which outputs the clamp leaves alone. -/
noncomputable def kooiStepNoClamp (c : KooiConfig) (p : ParticleState)
    (dt : ℝ) : ParticleState :=
  { p with
    a := p.a + (a_coll c p + a_growth c p - a_mort c p - a_resp c p) * dt
    a_coll := a_coll c p
    a_growth := a_growth c p
    a_resp := a_resp c p
    vs_init := vs_init c p
    depth := p.depth + vs_init c p * dt
    vs := vs_init c p
    rho_tot := rho_tot c p
    r_tot := r_tot c p
    delta_rho := delta_rho c p }

/-- Pure-water dynamic viscosity term of the `Profiles` kernel. -/
noncomputable def mu_w (t : ℝ) : ℝ :=
  4.2844e-5 + 1 / (0.157 * (t + 64.993) ^ 2 - 91.296)

/-- Salinity coefficient `A` of the `Profiles` kernel. -/
def viscA (t : ℝ) : ℝ :=
  1.541 + 1.998e-2 * t - 9.52e-5 * t ^ 2

/-- Salinity coefficient `B` of the `Profiles` kernel. -/
def viscB (t : ℝ) : ℝ :=
  7.974 - 7.561e-2 * t + 4.724e-4 * t ^ 2

/-- Dynamic seawater viscosity written by the `Profiles` kernel:
`sw_visc = mu_w * (1 + A*S_sw + B*S_sw^2)` with `S_sw = salinity/1000`. -/
noncomputable def Profiles_sw_visc (t sal : ℝ) : ℝ :=
  mu_w t * (1 + viscA t * (sal / 1000) + viscB t * (sal / 1000) ^ 2)

/-- Kinematic viscosity written by the `Profiles` kernel:
`kin_visc = sw_visc / density`. -/
noncomputable def Profiles_kin_visc (t sal rho_sw : ℝ) : ℝ :=
  Profiles_sw_visc t sal / rho_sw

/-- Dynamic viscosity as the specification writes it, term by term:
`mu_w = 4.2844e-5 + 1/((0.157*(t+64.993)^2) - 91.296)`,
`A = 1.541 + 1.998e-2*t - 9.52e-5*t^2`,
`B = 7.974 - 7.561e-2*t + 4.724e-4*t^2`, `S = s/1000`,
`sw_visc = mu_w * (1 + A*S + B*S^2)`. -/
noncomputable def spec_sw_visc (t s : ℝ) : ℝ :=
  (4.2844e-5 + 1 / (0.157 * (t + 64.993) ^ 2 - 91.296)) *
    (1 + (1.541 + 1.998e-2 * t - 9.52e-5 * t ^ 2) * (s / 1000) +
      (7.974 - 7.561e-2 * t + 4.724e-4 * t ^ 2) * (s / 1000) ^ 2)

/-- Kinematic viscosity as the specification writes it: `sw_visc / rho_sw`. -/
noncomputable def spec_kin_visc (t s rho_sw : ℝ) : ℝ :=
  spec_sw_visc t s / rho_sw

/-! Helper lemmas shared by several claims. -/

/-- Cube root of a cube of a non-negative real. -/
lemma rpow_third_cube (x : ℝ) (hx : 0 ≤ x) : (x ^ 3) ^ ((1 : ℝ) / 3) = x := by
  rw [← Real.rpow_natCast x 3, ← Real.rpow_mul hx]
  norm_num

/-- With no attached algae the volume balance collapses to the plastic cube. -/
lemma v_tot_mul_of_a_zero (c : KooiConfig) (p : ParticleState) (ha : p.a = 0) :
    v_tot c p * (3 / (4 * Real.pi)) = p.r_pl ^ 3 := by
  unfold v_tot v_bf v_pl theta_pl
  rw [ha]
  field_simp

/-- With no attached algae the biofilm thickness is zero. -/
lemma t_bf_of_a_zero (c : KooiConfig) (p : ParticleState) (ha : p.a = 0)
    (hr : 0 ≤ p.r_pl) : t_bf c p = 0 := by
  unfold t_bf
  rw [v_tot_mul_of_a_zero c p ha, rpow_third_cube _ hr, sub_self]

/-- With no attached algae the total radius is the plastic radius. -/
lemma r_tot_of_a_zero (c : KooiConfig) (p : ParticleState) (ha : p.a = 0)
    (hr : 0 ≤ p.r_pl) : r_tot c p = p.r_pl := by
  unfold r_tot
  rw [t_bf_of_a_zero c p ha hr, add_zero]

/-- With no attached algae the total density is the plastic density. -/
lemma rho_tot_of_a_zero (c : KooiConfig) (p : ParticleState) (ha : p.a = 0)
    (hr : 0 ≤ p.r_pl) (hr0 : p.r_pl ≠ 0) : rho_tot c p = p.rho_pl := by
  unfold rho_tot
  rw [t_bf_of_a_zero c p ha hr, add_zero, sub_self, zero_mul, add_zero,
    mul_comm, mul_div_assoc, div_self (pow_ne_zero 3 hr0), mul_one]

/-- The dimensionless velocity is positive whenever `dstar` is nonzero. -/
lemma w_pos (c : KooiConfig) (p : ParticleState) (h : dstar c p ≠ 0) :
    0 < w c p := by
  unfold w
  split_ifs with h1 h2
  · norm_num
  · exact mul_pos (sq_pos_of_ne_zero h) (by norm_num)
  · exact Real.rpow_pos_of_pos (by norm_num) _

/-- Neutral buoyancy gives an exactly zero pre-clamp velocity. -/
lemma vs_init_of_delta_rho_zero (c : KooiConfig) (p : ParticleState)
    (hd : delta_rho c p = 0) : vs_init c p = 0 := by
  unfold vs_init
  rw [hd, if_neg (lt_irrefl (0 : ℝ))]
  have h0 : c.G * p.kin_visc * w c p * ((0 : ℝ) * -1) = 0 := by ring
  rw [h0, Real.zero_rpow (by norm_num), mul_zero]

/-- Positive density anomaly gives a positive pre-clamp velocity. -/
lemma vs_init_pos_of (c : KooiConfig) (p : ParticleState) (hg : 0 < c.G)
    (hkv : 0 < p.kin_visc) (hw : 0 < w c p) (hd : 0 < delta_rho c p) :
    0 < vs_init c p := by
  unfold vs_init
  rw [if_pos hd]
  exact Real.rpow_pos_of_pos (mul_pos (mul_pos (mul_pos hg hkv) hw) hd) _

/-- Negative density anomaly gives a negative pre-clamp velocity. -/
lemma vs_init_neg_of (c : KooiConfig) (p : ParticleState) (hg : 0 < c.G)
    (hkv : 0 < p.kin_visc) (hw : 0 < w c p) (hd : delta_rho c p < 0) :
    vs_init c p < 0 := by
  unfold vs_init
  rw [if_neg (not_lt.mpr hd.le)]
  have hmir : 0 < delta_rho c p * -1 := by linarith
  have hpos := Real.rpow_pos_of_pos
    (mul_pos (mul_pos (mul_pos hg hkv) hw) hmir) ((1 : ℝ) / 3)
  linarith

/-- The density difference is the anomaly scaled back by the local density. -/
lemma sub_density_eq (c : KooiConfig) (p : ParticleState)
    (hd : p.density ≠ 0) :
    rho_tot c p - p.density = delta_rho c p * p.density := by
  unfold delta_rho
  field_simp

/-- Sign of `dstar` when the particle is denser than the local seawater. -/
lemma dstar_pos_of (c : KooiConfig) (p : ParticleState) (hg : 0 < c.G)
    (hrt : 0 < r_tot c p) (hden : 0 < p.density) (hkv : p.kin_visc ≠ 0)
    (h : p.density < rho_tot c p) : 0 < dstar c p := by
  unfold dstar dn
  apply div_pos
  · have h3 : 0 < (2 * r_tot c p) ^ 3 := by positivity
    have hsub : 0 < rho_tot c p - p.density := by linarith
    exact mul_pos (mul_pos hsub hg) h3
  · exact mul_pos hden (sq_pos_of_ne_zero hkv)

/-- Sign of `dstar` when the particle is lighter than the local seawater. -/
lemma dstar_neg_of (c : KooiConfig) (p : ParticleState) (hg : 0 < c.G)
    (hrt : 0 < r_tot c p) (hden : 0 < p.density) (hkv : p.kin_visc ≠ 0)
    (h : rho_tot c p < p.density) : dstar c p < 0 := by
  unfold dstar dn
  apply div_neg_of_neg_of_pos
  · have h3 : 0 < (2 * r_tot c p) ^ 3 := by positivity
    have hsub : rho_tot c p - p.density < 0 := by linarith
    exact mul_neg_of_neg_of_pos (mul_neg_of_neg_of_pos hsub hg) h3
  · exact mul_pos hden (sq_pos_of_ne_zero hkv)

/-! Claim theorems. -/

/-- C2: the returned (depth, velocity) of the clamp stage: when
`z0 = z + vs*dt` satisfies `z0 <= 0.6` or `z0 >= 4000` the result is exactly
`(0.6, 0)` — also for a floor violation `z0 >= 4000`, which snaps to the
surface bound — and otherwise it is exactly `(z + vs*dt, vs)`. -/
theorem clampStep_cases (z vs dt : ℝ) :
    (z + vs * dt ≤ 0.6 ∨ 4000 ≤ z + vs * dt →
      clampStep z vs dt = (0.6, 0)) ∧
    (0.6 < z + vs * dt ∧ z + vs * dt < 4000 →
      clampStep z vs dt = (z + vs * dt, vs)) := by
  constructor
  · intro h
    simp only [clampStep, if_pos h]
  · rintro ⟨h1, h2⟩
    have hn : ¬(z + vs * dt ≤ 0.6 ∨ 4000 ≤ z + vs * dt) := by
      push_neg
      exact ⟨h1, h2⟩
    simp only [clampStep, if_neg hn]

/-- Witness for C2 at a concrete floor violation: depth 5000 snaps to 0.6. -/
theorem clampStep_cases_witness :
    ((5000 : ℝ) + 0 * 60 ≤ 0.6 ∨ 4000 ≤ (5000 : ℝ) + 0 * 60) ∧
    clampStep 5000 0 60 = (0.6, 0) := by
  have h : (5000 : ℝ) + 0 * 60 ≤ 0.6 ∨ 4000 ≤ (5000 : ℝ) + 0 * 60 := by
    norm_num
  exact ⟨h, (clampStep_cases 5000 0 60).1 h⟩

/-- C3: the depth returned by one biofouling step lies in [0.6, 4000] for
every prior state and timestep. -/
theorem kooiStep_depth_in_band (c : KooiConfig) (p : ParticleState) (dt : ℝ) :
    0.6 ≤ (kooiStep c p dt).depth ∧ (kooiStep c p dt).depth ≤ 4000 := by
  show 0.6 ≤ (clampStep p.depth (vs_init c p) dt).1 ∧
    (clampStep p.depth (vs_init c p) dt).1 ≤ 4000
  unfold clampStep
  split_ifs with h
  · norm_num
  · push_neg at h
    exact ⟨h.1.le, h.2.le⟩

/-- C10: the depth clamp is not an atomic rollback: the step's updates to `a`
and to the diagnostics `a_coll`, `a_growth`, `a_resp`, `vs_init`, `rho_tot`,
`r_tot` and `delta_rho` agree with the unclamped variant of the kernel on
every input; only the returned depth and velocity can differ. -/
theorem kooiStep_frame (c : KooiConfig) (p : ParticleState) (dt : ℝ) :
    (kooiStep c p dt).a = (kooiStepNoClamp c p dt).a ∧
    (kooiStep c p dt).a_coll = (kooiStepNoClamp c p dt).a_coll ∧
    (kooiStep c p dt).a_growth = (kooiStepNoClamp c p dt).a_growth ∧
    (kooiStep c p dt).a_resp = (kooiStepNoClamp c p dt).a_resp ∧
    (kooiStep c p dt).vs_init = (kooiStepNoClamp c p dt).vs_init ∧
    (kooiStep c p dt).rho_tot = (kooiStepNoClamp c p dt).rho_tot ∧
    (kooiStep c p dt).r_tot = (kooiStepNoClamp c p dt).r_tot ∧
    (kooiStep c p dt).delta_rho = (kooiStepNoClamp c p dt).delta_rho :=
  ⟨rfl, rfl, rfl, rfl, rfl, rfl, rfl, rfl⟩

/-- C5: the `Profiles` viscosity outputs agree, for every temperature, raw
salinity and density, with the closed formulas of the specification, and the
kinematic viscosity is the dynamic one divided by the density. -/
theorem Profiles_visc_eq_spec (t s rho_sw : ℝ) :
    Profiles_sw_visc t s = spec_sw_visc t s ∧
    Profiles_kin_visc t s rho_sw = spec_sw_visc t s / rho_sw :=
  ⟨rfl, rfl⟩

/-- C6: one step advances the attached-algae density by the explicit Euler
update `a + dt*(a_coll + a_growth - a_mort - a_resp)`, records `a_coll`,
`a_growth` and `a_resp` as diagnostics, and the four components have exactly
the kinetic forms of the source. -/
theorem kooiStep_a_euler (c : KooiConfig) (p : ParticleState) (dt : ℝ) :
    (kooiStep c p dt).a =
      p.a + dt * (a_coll c p + a_growth c p - a_mort c p - a_resp c p) ∧
    (kooiStep c p dt).a_coll = a_coll c p ∧
    (kooiStep c p dt).a_growth = a_growth c p ∧
    (kooiStep c p dt).a_resp = a_resp c p ∧
    a_coll c p = beta_a c p * aa c p / theta_pl p ∧
    a_growth c p = mu_aa c p * p.a ∧
    a_mort c p = c.M_a * p.a ∧
    a_resp c p = c.Q10 ^ ((p.temp - 20) / 10) * c.R20 * p.a := by
  refine ⟨?_, rfl, rfl, rfl, rfl, rfl, rfl, rfl⟩
  show p.a + (a_coll c p + a_growth c p - a_mort c p - a_resp c p) * dt = _
  ring

/-- C1: whenever the clamped ambient algal concentration is zero — whatever
the productivity — the growth rate `mu_aa` is zero and the step's recorded
growth diagnostic is zero; the step completes as a total function. -/
theorem mu_aa_of_aa_zero (c : KooiConfig) (p : ParticleState) (dt : ℝ)
    (haa : aa c p = 0) (_ht : p.tpp3 ≠ 0) :
    mu_aa c p = 0 ∧ (kooiStep c p dt).a_growth = 0 := by
  have h : mu_aa c p = 0 := by
    unfold mu_aa
    rw [haa]
    norm_num
  refine ⟨h, ?_⟩
  show a_growth c p = 0
  unfold a_growth
  rw [h, zero_mul]

/-- Concrete state for the zero-ambient-algae guard: no phytoplankton but a
nonzero productivity. -/
noncomputable def pC1 : ParticleState where
  depth := 0.6
  temp := 15
  sw_visc := 1e-3
  kin_visc := 1e-6
  density := 1025
  a := 0
  vs := 0
  nd_phy := 0
  d_phy := 0
  tpp3 := 1
  r_pl := 1e-4
  rho_pl := 920
  a_coll := 0
  a_growth := 0
  a_resp := 0
  vs_init := 0
  rho_tot := 920
  r_tot := 1e-4
  delta_rho := 0

/-- Witness for C1: zero ambient algae with productivity 1 yields zero
growth rate. -/
theorem mu_aa_of_aa_zero_witness :
    aa refConfig pC1 = 0 ∧ pC1.tpp3 ≠ 0 ∧
    (mu_aa refConfig pC1 = 0 ∧ (kooiStep refConfig pC1 60).a_growth = 0) := by
  have haa : aa refConfig pC1 = 0 := by
    simp [aa, n2, pC1]
  have ht : pC1.tpp3 ≠ 0 := by
    norm_num [pC1]
  exact ⟨haa, ht, mu_aa_of_aa_zero refConfig pC1 60 haa ht⟩

/-- C4: pre-clamp settling velocity has the sign of the density anomaly, for
every positive total radius, kinematic viscosity, seawater density and
gravitational constant, across the whole `dstar` domain of the piecewise
correlation (both regime boundaries fall into branches with positive `w`). -/
theorem vs_init_sign (c : KooiConfig) (p : ParticleState)
    (hrt : 0 < r_tot c p) (hkv : 0 < p.kin_visc) (hden : 0 < p.density)
    (hg : 0 < c.G) :
    (delta_rho c p = 0 → vs_init c p = 0) ∧
    (0 < delta_rho c p → 0 < vs_init c p) ∧
    (delta_rho c p < 0 → vs_init c p < 0) := by
  have hdd : rho_tot c p - p.density = delta_rho c p * p.density :=
    sub_density_eq c p (ne_of_gt hden)
  refine ⟨fun h => vs_init_of_delta_rho_zero c p h, fun h => ?_, fun h => ?_⟩
  · have hsub : 0 < rho_tot c p - p.density := by
      rw [hdd]
      exact mul_pos h hden
    have hds : 0 < dstar c p :=
      dstar_pos_of c p hg hrt hden (ne_of_gt hkv) (by linarith)
    exact vs_init_pos_of c p hg hkv (w_pos c p (ne_of_gt hds)) h
  · have hsub : rho_tot c p - p.density < 0 := by
      rw [hdd]
      exact mul_neg_of_neg_of_pos h hden
    have hds : dstar c p < 0 :=
      dstar_neg_of c p hg hrt hden (ne_of_gt hkv) (by linarith)
    exact vs_init_neg_of c p hg hkv (w_pos c p (ne_of_lt hds)) h

/-- Concrete neutrally buoyant state: bare particle of radius 1 whose plastic
density equals the local seawater density. -/
noncomputable def pC4 : ParticleState where
  depth := 1
  temp := 15
  sw_visc := 1e-3
  kin_visc := 1
  density := 1025
  a := 0
  vs := 0
  nd_phy := 0
  d_phy := 0
  tpp3 := 0
  r_pl := 1
  rho_pl := 1025
  a_coll := 0
  a_growth := 0
  a_resp := 0
  vs_init := 0
  rho_tot := 1025
  r_tot := 1
  delta_rho := 0

/-- Witness for C4 at the neutrally buoyant concrete state. -/
theorem vs_init_sign_witness :
    0 < r_tot refConfig pC4 ∧ 0 < pC4.kin_visc ∧ 0 < pC4.density ∧
    0 < refConfig.G ∧
    ((delta_rho refConfig pC4 = 0 → vs_init refConfig pC4 = 0) ∧
     (0 < delta_rho refConfig pC4 → 0 < vs_init refConfig pC4) ∧
     (delta_rho refConfig pC4 < 0 → vs_init refConfig pC4 < 0)) := by
  have hrt : 0 < r_tot refConfig pC4 := by
    rw [r_tot_of_a_zero refConfig pC4 (by norm_num [pC4]) (by norm_num [pC4])]
    norm_num [pC4]
  have hkv : 0 < pC4.kin_visc := by norm_num [pC4]
  have hden : 0 < pC4.density := by norm_num [pC4]
  have hg : 0 < refConfig.G := by norm_num [refConfig]
  exact ⟨hrt, hkv, hden, hg, vs_init_sign refConfig pC4 hrt hkv hden hg⟩

/-- C7: with the collision kernel and the plastic surface area held fixed and
positive, the collision attachment rate is strictly increasing in the clamped
ambient algal concentration. -/
theorem a_coll_strict_mono (c : KooiConfig) (p q : ParticleState)
    (hb : beta_a c q = beta_a c p) (hθ : theta_pl q = theta_pl p)
    (hbpos : 0 < beta_a c p) (hθpos : 0 < theta_pl p)
    (haa : aa c p < aa c q) : a_coll c p < a_coll c q := by
  unfold a_coll
  rw [hb, hθ]
  exact (div_lt_div_iff_of_pos_right hθpos).mpr ((mul_lt_mul_left hbpos).mpr haa)

/-- Degenerate constant set that switches off diffusion and shear, keeping
only the differential-settling encounter term. -/
noncomputable def cC7 : KooiConfig where
  G := 1
  K := 0
  Rho_bf := 0
  V_a := 0
  M_a := 0
  R20 := 0
  Q10 := 1
  Gamma := 0
  Wt_N := 14.007

/-- Concrete state with no ambient algae and a unit particle settling at
2 m/s. -/
noncomputable def pC7 : ParticleState where
  depth := 1
  temp := 0
  sw_visc := 1
  kin_visc := 1
  density := 1
  a := 0
  vs := 2
  nd_phy := 0
  d_phy := 0
  tpp3 := 0
  r_pl := 1
  rho_pl := 1
  a_coll := 0
  a_growth := 0
  a_resp := 0
  vs_init := 0
  rho_tot := 1
  r_tot := 1
  delta_rho := 0

/-- Same state with one unit of non-diatom phytoplankton. -/
noncomputable def qC7 : ParticleState :=
  { pC7 with nd_phy := 1 }

/-- Algal cell radius vanishes under the degenerate constants. -/
lemma r_a_cC7 : r_a cC7 = 0 := by
  unfold r_a
  rw [show (3 / 4 : ℝ) * (cC7.V_a / Real.pi) = 0 by simp [cC7]]
  exact Real.zero_rpow (by norm_num)

/-- Total radius of the concrete bare particle. -/
lemma r_tot_cC7_pC7 : r_tot cC7 pC7 = 1 := by
  rw [r_tot_of_a_zero cC7 pC7 (by norm_num [pC7]) (by norm_num [pC7])]
  norm_num [pC7]

/-- The collision kernel is positive at the concrete state: the settling term
alone contributes `pi`. -/
lemma beta_a_cC7_pC7_pos : 0 < beta_a cC7 pC7 := by
  unfold beta_a beta_abrown beta_ashear beta_aset d_pl d_a
  rw [r_tot_cC7_pC7, r_a_cC7]
  simp [cC7, pC7]
  positivity

/-- Witness for C7 at concrete states differing only in phytoplankton. -/
theorem a_coll_strict_mono_witness :
    beta_a cC7 qC7 = beta_a cC7 pC7 ∧ theta_pl qC7 = theta_pl pC7 ∧
    0 < beta_a cC7 pC7 ∧ 0 < theta_pl pC7 ∧ aa cC7 pC7 < aa cC7 qC7 ∧
    a_coll cC7 pC7 < a_coll cC7 qC7 := by
  have hb : beta_a cC7 qC7 = beta_a cC7 pC7 := rfl
  have hθ : theta_pl qC7 = theta_pl pC7 := rfl
  have hθpos : 0 < theta_pl pC7 := by
    unfold theta_pl
    simp [pC7]
    positivity
  have hba : 0 < beta_a cC7 pC7 := beta_a_cC7_pC7_pos
  have h1 : aa cC7 pC7 = 0 := by simp [aa, n2, pC7]
  have hn : n2 cC7 qC7 = 14.007 / med_N2cell := by
    unfold n2
    simp [qC7, pC7, cC7]
  have h2 : aa cC7 qC7 = 14.007 / med_N2cell := by
    unfold aa
    rw [hn, if_neg (by norm_num [med_N2cell])]
  have haa : aa cC7 pC7 < aa cC7 qC7 := by
    rw [h1, h2]
    norm_num [med_N2cell]
  exact ⟨hb, hθ, hba, hθpos, haa,
    a_coll_strict_mono cC7 pC7 qC7 hb hθ hba hθpos haa⟩

/-- C8: with non-negative attached-algae density and a positive plastic
radius, the volume-balance total radius is at least the plastic radius, so
the biofilm thickness is non-negative. -/
theorem r_tot_ge_r_pl (p : ParticleState) (ha : 0 ≤ p.a) (hr : 0 < p.r_pl) :
    p.r_pl ≤ r_tot refConfig p := by
  have hx : v_tot refConfig p * (3 / (4 * Real.pi)) =
      3 * refConfig.V_a * p.a * p.r_pl ^ 2 + p.r_pl ^ 3 := by
    unfold v_tot v_bf v_pl theta_pl
    field_simp
    ring
  have hVa : (0 : ℝ) ≤ refConfig.V_a := by norm_num [refConfig]
  have hge : p.r_pl ^ 3 ≤ v_tot refConfig p * (3 / (4 * Real.pi)) := by
    rw [hx]
    nlinarith [mul_nonneg (mul_nonneg (mul_nonneg
      (by norm_num : (0 : ℝ) ≤ 3) hVa) ha) (sq_nonneg p.r_pl)]
  have h1 : p.r_pl ≤ (v_tot refConfig p * (3 / (4 * Real.pi))) ^ ((1 : ℝ) / 3) := by
    calc p.r_pl = (p.r_pl ^ 3) ^ ((1 : ℝ) / 3) := (rpow_third_cube _ hr.le).symm
      _ ≤ _ := Real.rpow_le_rpow (pow_nonneg hr.le 3) hge (by norm_num)
  unfold r_tot t_bf
  linarith

/-- Witness for C8 at the concrete bare particle of radius 1. -/
theorem r_tot_ge_r_pl_witness :
    (0 : ℝ) ≤ pC4.a ∧ 0 < pC4.r_pl ∧ pC4.r_pl ≤ r_tot refConfig pC4 := by
  have ha : (0 : ℝ) ≤ pC4.a := by norm_num [pC4]
  have hr : 0 < pC4.r_pl := by norm_num [pC4]
  exact ⟨ha, hr, r_tot_ge_r_pl pC4 ha hr⟩

/-- C9: one step of the end-to-end scenario — a bare 1e-4 m particle of
density 920 released at 0.6 m in 1025 kg/m^3 seawater at 15 degrees with no
phytoplankton and no productivity, dt = 60 s — leaves `a` at zero, records a
negative density anomaly and a negative pre-clamp velocity, and the returned
depth decreases or is clamped to 0.6 (the sign test on `z0` fires the
clamp). -/
theorem scenario_one (p : ParticleState) (h1 : p.r_pl = 1e-4)
    (h2 : p.rho_pl = 920) (h3 : p.a = 0) (h4 : p.depth = 0.6)
    (h5 : p.density = 1025) (_h6 : p.temp = 15) (h7 : p.nd_phy + p.d_phy = 0)
    (_h8 : p.tpp3 = 0) (h9 : 0 < p.kin_visc) :
    (kooiStep refConfig p 60).a = 0 ∧
    (kooiStep refConfig p 60).delta_rho < 0 ∧
    (kooiStep refConfig p 60).vs_init < 0 ∧
    ((kooiStep refConfig p 60).depth < 0.6 ∨
      (kooiStep refConfig p 60).depth = 0.6) := by
  have hr0 : (0 : ℝ) ≤ p.r_pl := by rw [h1]; norm_num
  have hrne : p.r_pl ≠ 0 := by rw [h1]; norm_num
  have hrho : rho_tot refConfig p = 920 := by
    rw [rho_tot_of_a_zero refConfig p h3 hr0 hrne, h2]
  have hrt : r_tot refConfig p = 1e-4 := by
    rw [r_tot_of_a_zero refConfig p h3 hr0, h1]
  have hδ : delta_rho refConfig p < 0 := by
    unfold delta_rho
    rw [hrho, h5]
    norm_num
  have hG : 0 < refConfig.G := by norm_num [refConfig]
  have hds : dstar refConfig p < 0 := by
    unfold dstar dn
    rw [hrho, h5, hrt]
    apply div_neg_of_neg_of_pos
    · have hc : (920 - 1025 : ℝ) < 0 := by norm_num
      have hd3 : (0 : ℝ) < (2 * 1e-4) ^ 3 := by norm_num
      exact mul_neg_of_neg_of_pos (mul_neg_of_neg_of_pos hc hG) hd3
    · exact mul_pos (by norm_num) (pow_pos h9 2)
  have hw : 0 < w refConfig p := w_pos refConfig p (ne_of_lt hds)
  have hvs : vs_init refConfig p < 0 := vs_init_neg_of refConfig p hG h9 hw hδ
  have haa : aa refConfig p = 0 := by
    unfold aa n2
    rw [h7]
    norm_num
  have ha' : (kooiStep refConfig p 60).a = 0 := by
    show p.a + (a_coll refConfig p + a_growth refConfig p -
      a_mort refConfig p - a_resp refConfig p) * 60 = 0
    have hacoll : a_coll refConfig p = 0 := by
      unfold a_coll
      rw [haa, mul_zero, zero_div]
    unfold a_growth a_mort a_resp
    rw [hacoll, h3]
    ring
  have hdepth : (kooiStep refConfig p 60).depth = 0.6 := by
    show (clampStep p.depth (vs_init refConfig p) 60).1 = 0.6
    unfold clampStep
    rw [if_pos]
    left
    rw [h4]
    linarith
  exact ⟨ha', hδ, hvs, Or.inr hdepth⟩

/-- Concrete state for the end-to-end scenario. -/
noncomputable def pC9 : ParticleState where
  depth := 0.6
  temp := 15
  sw_visc := 1e-3
  kin_visc := 1e-6
  density := 1025
  a := 0
  vs := 0
  nd_phy := 0
  d_phy := 0
  tpp3 := 0
  r_pl := 1e-4
  rho_pl := 920
  a_coll := 0
  a_growth := 0
  a_resp := 0
  vs_init := 0
  rho_tot := 920
  r_tot := 1e-4
  delta_rho := 0

/-- Witness for C9 at the fully concrete scenario state. -/
theorem scenario_one_witness :
    pC9.r_pl = 1e-4 ∧ pC9.rho_pl = 920 ∧ pC9.a = 0 ∧ pC9.depth = 0.6 ∧
    pC9.density = 1025 ∧ pC9.temp = 15 ∧ pC9.nd_phy + pC9.d_phy = 0 ∧
    pC9.tpp3 = 0 ∧ 0 < pC9.kin_visc ∧
    ((kooiStep refConfig pC9 60).a = 0 ∧
     (kooiStep refConfig pC9 60).delta_rho < 0 ∧
     (kooiStep refConfig pC9 60).vs_init < 0 ∧
     ((kooiStep refConfig pC9 60).depth < 0.6 ∨
       (kooiStep refConfig pC9 60).depth = 0.6)) := by
  refine ⟨rfl, rfl, rfl, rfl, rfl, rfl, by norm_num [pC9], rfl,
    by norm_num [pC9], ?_⟩
  exact scenario_one pC9 rfl rfl rfl rfl rfl rfl (by norm_num [pC9]) rfl
    (by norm_num [pC9])

end SOAC
